import Mathlib

/-!
Verification of the crypto-predictor core: the profit backtesting simulator
(`src/lucro.py`), the scaling/conditioning guard inside the fold evaluator and
the polynomial degree search (`src/models.py`).

Numeric values are modelled as exact rationals (ℚ).  Python's `None, None, None`
error return of the simulator is modelled as `Option.none`; a successful run is
`some (dinheiro_final, lucro_total, historico_dinheiro)`.
-/

namespace CryptoPredictor

/-- One day's money update inside `calcular_lucro_investimento`
(`src/lucro.py`, loop body lines 40-59): read `preco_hoje = precos_reais[dia]`,
`preco_amanha_real = precos_reais[dia+1]`, `previsao_amanha = previsoes_modelo[dia+1]`;
if `previsao_amanha > preco_hoje` the capital is converted into coins at today's
price and realised at tomorrow's price, otherwise it is kept unchanged. -/
def atualiza_dinheiro (precos_reais previsoes_modelo : List ℚ) (dinheiro_atual : ℚ)
    (dia : ℕ) : ℚ :=
  let preco_hoje := precos_reais.getD dia 0
  let preco_amanha_real := precos_reais.getD (dia + 1) 0
  let previsao_amanha := previsoes_modelo.getD (dia + 1) 0
  if previsao_amanha > preco_hoje then
    (dinheiro_atual / preco_hoje) * preco_amanha_real
  else
    dinheiro_atual

/-- One iteration of the simulator loop: update the money and append the new
value to `historico_dinheiro` (`src/lucro.py` lines 40-60). -/
def passo_dia (precos_reais previsoes_modelo : List ℚ) (st : ℚ × List ℚ)
    (dia : ℕ) : ℚ × List ℚ :=
  let dinheiro_amanha := atualiza_dinheiro precos_reais previsoes_modelo st.1 dia
  (dinheiro_amanha, st.2 ++ [dinheiro_amanha])

/-- `calcular_lucro_investimento(precos_reais, previsoes_modelo, investimento_inicial)`
(`src/lucro.py` lines 5-72).  On a length mismatch the Python function returns
`(None, None, None)`, modelled as `none`.  Otherwise it runs the daily loop for
`dia` in `range(len(precos_reais) - 1)` starting from
`historico_dinheiro = [investimento_inicial]` and returns
`(dinheiro_final, lucro_total, historico_dinheiro)` with
`lucro_total = dinheiro_final - investimento_inicial`. -/
def calcular_lucro_investimento (precos_reais previsoes_modelo : List ℚ)
    (investimento_inicial : ℚ) : Option (ℚ × ℚ × List ℚ) :=
  if precos_reais.length ≠ previsoes_modelo.length then
    none
  else
    let resultado := (List.range (precos_reais.length - 1)).foldl
      (passo_dia precos_reais previsoes_modelo)
      (investimento_inicial, [investimento_inicial])
    some (resultado.1, resultado.1 - investimento_inicial, resultado.2)

/-- The money after `dia` simulated days: closed-form unrolling of the loop of
`calcular_lucro_investimento`, used to reason about the trajectory. -/
def dinheiro_apos (precos_reais previsoes_modelo : List ℚ) (investimento_inicial : ℚ) :
    ℕ → ℚ
  | 0 => investimento_inicial
  | dia + 1 =>
      atualiza_dinheiro precos_reais previsoes_modelo
        (dinheiro_apos precos_reais previsoes_modelo investimento_inicial dia) dia

/-- The comparison and margin step of `comparar_lucro_entre_modelos`
(`src/lucro.py` lines 102-112): the two profit values are produced by
`calcular_lucro_investimento` on the two prediction series; the winner is
decided by `if lucro1 > lucro2` and the margin is winner minus loser. -/
def comparar_lucro_entre_modelos (lucro1 lucro2 : ℚ)
    (nome_modelo1 nome_modelo2 : String) : String × ℚ :=
  if lucro1 > lucro2 then
    (nome_modelo1, lucro1 - lucro2)
  else
    (nome_modelo2, lucro2 - lucro1)

/-- `calcular_estrategia_buy_and_hold(precos_reais, investimento_inicial)`
(`src/lucro.py` lines 124-153): buy `investimento_inicial / precos_reais[0]`
coins on the first day, value them at `precos_reais[-1]`, return the profit. -/
def calcular_estrategia_buy_and_hold (precos_reais : List ℚ)
    (investimento_inicial : ℚ) : ℚ :=
  let preco_inicial := precos_reais.getD 0 0
  let preco_final := precos_reais.getD (precos_reais.length - 1) 0
  let quantidade_moedas := investimento_inicial / preco_inicial
  let valor_final := quantidade_moedas * preco_final
  valor_final - investimento_inicial

/-- Unrolling the simulator loop: after the first `k` iterations the state is
the money after `k` days together with the first `k + 1` trajectory entries. -/
lemma foldl_passo_dia (precos_reais previsoes_modelo : List ℚ)
    (investimento_inicial : ℚ) (k : ℕ) :
    (List.range k).foldl (passo_dia precos_reais previsoes_modelo)
        (investimento_inicial, [investimento_inicial]) =
      (dinheiro_apos precos_reais previsoes_modelo investimento_inicial k,
       (List.range (k + 1)).map
         (dinheiro_apos precos_reais previsoes_modelo investimento_inicial)) := by
  induction k with
  | zero => simp [dinheiro_apos, List.range_succ]
  | succ k ih =>
      rw [List.range_succ, List.foldl_append, ih, List.range_succ (k + 1),
        List.map_append]
      simp [passo_dia, dinheiro_apos]

/-- On equal-length inputs the simulator succeeds, and its outputs are the
closed-form money values. -/
lemma calcular_lucro_eq (precos_reais previsoes_modelo : List ℚ)
    (investimento_inicial : ℚ)
    (hlen : precos_reais.length = previsoes_modelo.length) :
    calcular_lucro_investimento precos_reais previsoes_modelo investimento_inicial =
      some (dinheiro_apos precos_reais previsoes_modelo investimento_inicial
              (precos_reais.length - 1),
            dinheiro_apos precos_reais previsoes_modelo investimento_inicial
              (precos_reais.length - 1) - investimento_inicial,
            (List.range (precos_reais.length - 1 + 1)).map
              (dinheiro_apos precos_reais previsoes_modelo investimento_inicial)) := by
  unfold calcular_lucro_investimento
  rw [if_neg (by simp [hlen])]
  rw [foldl_passo_dia]

/-- An IEEE value as produced by `StandardScaler` inside
`validacao_cruzada_kfold` (`src/models.py`): either not-a-number, an infinity,
or an (exactly represented) finite value. -/
inductive FloatVal : Type
  | nan : FloatVal
  | posinf : FloatVal
  | neginf : FloatVal
  | finite : ℚ → FloatVal
deriving DecidableEq

/-- Whether a value is NaN (`np.isnan`). -/
def FloatVal.isnan : FloatVal → Bool
  | .nan => true
  | _ => false

/-- Whether a value is an infinity (`np.isinf`). -/
def FloatVal.isinf : FloatVal → Bool
  | .posinf => true
  | .neginf => true
  | _ => false

/-- `np.nan_to_num(x, nan=0, posinf=10, neginf=-10)` on one entry
(`src/models.py` lines 81, 83). -/
def nan_to_num (v : FloatVal) : FloatVal :=
  match v with
  | .nan => .finite 0
  | .posinf => .finite 10
  | .neginf => .finite (-10)
  | .finite x => .finite x

/-- `np.clip(x, lo, hi)` on one entry (`src/models.py` lines 86-87):
NaN propagates, an infinity is clamped to the corresponding bound, and a finite
value is clamped into `[lo, hi]`. -/
def clip (lo hi : ℚ) (v : FloatVal) : FloatVal :=
  match v with
  | .nan => .nan
  | .posinf => .finite hi
  | .neginf => .finite lo
  | .finite x => .finite (max lo (min hi x))

/-- The numeric guard of `validacao_cruzada_kfold` applied to one scaled matrix
(`src/models.py` lines 80-87), entries flattened into a list: if any entry is
NaN or infinite, the whole matrix goes through `np.nan_to_num(., nan=0,
posinf=10, neginf=-10)`; afterwards every entry is clipped to `[-50, 50]`.
The matrix is the output of `StandardScaler`, so it is quantified over freely. -/
def sanitiza_matriz_escalada (matriz : List FloatVal) : List FloatVal :=
  let matriz1 :=
    if matriz.any (fun v => v.isnan || v.isinf) then matriz.map nan_to_num
    else matriz
  matriz1.map (clip (-50) 50)

/-- The polynomial expansion degree used by the `poly` branch of
`validacao_cruzada_kfold` (`src/models.py` line 111,
`PolynomialFeatures(degree=2)`).  `validacao_cruzada_kfold` takes no degree
argument, so this degree is the same for every caller. -/
def grau_poly_cv : ℕ := 2

/-- `erro_medio < menor_erro` where `menor_erro` starts at `float('inf')`
(modelled as `none`). -/
def menor_que_erro (erro_medio : ℚ) : Option ℚ → Bool
  | none => true
  | some menor_erro => decide (erro_medio < menor_erro)

/-- The degree-selection loop of `encontrar_melhor_grau_polinomial`
(`src/models.py` lines 173-214).  For each `grau` in `range(2, 11)` the code
calls `validacao_cruzada_kfold(dados_X, dados_y, numero_folds=3,
modelo_tipo="poly")`; that call receives no degree, so on a fixed dataset it is
one deterministic value `erro_cv` — the same in every iteration.  The state is
`(melhor_grau, menor_erro)` starting at `(2, float('inf'))`, updated on strict
improvement.  (The fitted model and transformer tracked alongside are those of
the current `melhor_grau` and do not affect the selection.) -/
def encontrar_melhor_grau_polinomial (erro_cv : ℚ) : ℕ × Option ℚ :=
  (List.range' 2 9).foldl
    (fun st grau =>
      let erro_medio := erro_cv
      if menor_que_erro erro_medio st.2 then (grau, some erro_medio) else st)
    (2, none)

/-- Indexing a mapped range with `getD`. -/
lemma getD_map_range (f : ℕ → ℚ) (n t : ℕ) (h : t < n) :
    ((List.range n).map f).getD t 0 = f t := by
  rw [List.getD_eq_getElem?_getD, List.getElem?_map, List.getElem?_range h]
  rfl

/-- `getD` at an in-bounds index is a member of the list. -/
lemma getD_mem_of_lt (l : List ℚ) (i : ℕ) (h : i < l.length) : l.getD i 0 ∈ l := by
  rw [List.getD_eq_getElem?_getD, List.getElem?_eq_getElem h]
  exact List.getElem_mem ..

/-- C3: whenever `len(precos_reais) != len(previsoes_modelo)` the simulator
returns the error result (`None, None, None`, modelled as `none`), which is
distinct from every successful outcome: on any equal-length input the simulator
returns `some` result. -/
theorem C3_tamanhos_diferentes_rejeitados (precos_reais previsoes_modelo : List ℚ)
    (investimento_inicial : ℚ)
    (hlen : precos_reais.length ≠ previsoes_modelo.length) :
    calcular_lucro_investimento precos_reais previsoes_modelo investimento_inicial
        = none ∧
      ∀ (precos2 previsoes2 : List ℚ), precos2.length = previsoes2.length →
        calcular_lucro_investimento precos2 previsoes2 investimento_inicial ≠ none := by
  constructor
  · unfold calcular_lucro_investimento
    rw [if_pos hlen]
  · intro precos2 previsoes2 hlen2
    rw [calcular_lucro_eq _ _ _ hlen2]
    simp

/-- Witness for C3 at the concrete mismatched input `[1]` vs `[]`. -/
theorem C3_tamanhos_diferentes_rejeitados_witness :
    calcular_lucro_investimento [1] [] 1000 = none :=
  (C3_tamanhos_diferentes_rejeitados [1] [] 1000 (by simp)).1

/-- C4: on equal-length inputs of length `< 2` the simulator makes no decision
and succeeds with trajectory `[investimento_inicial]`, final capital
`investimento_inicial` and profit `0`. -/
theorem C4_entrada_curta (precos_reais previsoes_modelo : List ℚ)
    (investimento_inicial : ℚ)
    (hlen : precos_reais.length = previsoes_modelo.length)
    (hcurto : precos_reais.length < 2) :
    calcular_lucro_investimento precos_reais previsoes_modelo investimento_inicial =
      some (investimento_inicial, 0, [investimento_inicial]) := by
  rw [calcular_lucro_eq _ _ _ hlen]
  have h0 : precos_reais.length - 1 = 0 := by omega
  rw [h0]
  simp [dinheiro_apos, List.range_succ]

/-- Witness for C4 at `precos_reais = [5]`, `previsoes_modelo = [5]`,
initial capital `7`. -/
theorem C4_entrada_curta_witness :
    calcular_lucro_investimento [5] [5] 7 = some (7, 0, [7]) :=
  C4_entrada_curta [5] [5] 7 (by simp) (by simp)

/-- C5: on equal-length inputs of length `≥ 2` the simulator succeeds, the
trajectory has the same length as the price list, and its first entry is the
initial capital. -/
theorem C5_trajetoria_tamanho_e_inicio (precos_reais previsoes_modelo : List ℚ)
    (investimento_inicial : ℚ)
    (hlen : precos_reais.length = previsoes_modelo.length)
    (h2 : 2 ≤ precos_reais.length) :
    ∃ dinheiro_final lucro_total historico_dinheiro,
      calcular_lucro_investimento precos_reais previsoes_modelo investimento_inicial =
          some (dinheiro_final, lucro_total, historico_dinheiro) ∧
        historico_dinheiro.length = precos_reais.length ∧
        historico_dinheiro.getD 0 0 = investimento_inicial := by
  refine ⟨_, _, _, calcular_lucro_eq _ _ _ hlen, ?_, ?_⟩
  · simp only [List.length_map, List.length_range]
    omega
  · rw [getD_map_range _ _ _ (by omega)]
    rfl

/-- Witness for C5 at `precos_reais = [1, 2]`, `previsoes_modelo = [0, 3]`,
initial capital `4`. -/
theorem C5_trajetoria_tamanho_e_inicio_witness :
    ∃ dinheiro_final lucro_total historico_dinheiro,
      calcular_lucro_investimento [1, 2] [0, 3] 4 =
          some (dinheiro_final, lucro_total, historico_dinheiro) ∧
        historico_dinheiro.length = ([1, 2] : List ℚ).length ∧
        historico_dinheiro.getD 0 0 = 4 :=
  C5_trajetoria_tamanho_e_inicio [1, 2] [0, 3] 4 (by simp) (by simp)

/-- C2: on strictly positive prices of equal length `n ≥ 2` the simulator
succeeds; for every day `t` from `0` to `n - 2` the next trajectory entry is
the old capital times `precos_reais[t+1] / precos_reais[t]` when
`previsoes_modelo[t+1] > precos_reais[t]`, and the old capital otherwise; and
the returned profit is the last trajectory entry minus the initial capital. -/
theorem C2_regra_de_decisao (precos_reais previsoes_modelo : List ℚ)
    (investimento_inicial : ℚ)
    (hlen : precos_reais.length = previsoes_modelo.length)
    (h2 : 2 ≤ precos_reais.length)
    (hpos : ∀ p ∈ precos_reais, 0 < p) :
    ∃ dinheiro_final lucro_total historico_dinheiro,
      calcular_lucro_investimento precos_reais previsoes_modelo investimento_inicial =
          some (dinheiro_final, lucro_total, historico_dinheiro) ∧
        historico_dinheiro.length = precos_reais.length ∧
        (∀ t, t + 1 ≤ precos_reais.length - 1 →
          historico_dinheiro.getD (t + 1) 0 =
            if previsoes_modelo.getD (t + 1) 0 > precos_reais.getD t 0 then
              historico_dinheiro.getD t 0 *
                (precos_reais.getD (t + 1) 0 / precos_reais.getD t 0)
            else
              historico_dinheiro.getD t 0) ∧
        lucro_total =
          historico_dinheiro.getD (precos_reais.length - 1) 0 -
            investimento_inicial := by
  refine ⟨_, _, _, calcular_lucro_eq _ _ _ hlen, ?_, ?_, ?_⟩
  · simp only [List.length_map, List.length_range]
    omega
  · intro t ht
    rw [getD_map_range _ _ _ (by omega), getD_map_range _ _ _ (by omega)]
    simp only [dinheiro_apos, atualiza_dinheiro]
    split
    · rw [div_mul_eq_mul_div, mul_div_assoc]
    · rfl
  · rw [getD_map_range _ _ _ (by omega)]

/-- Witness for C2 at `precos_reais = [1, 2]`, `previsoes_modelo = [0, 3]`,
initial capital `1000`. -/
theorem C2_regra_de_decisao_witness :
    ∃ dinheiro_final lucro_total historico_dinheiro,
      calcular_lucro_investimento [1, 2] [0, 3] 1000 =
          some (dinheiro_final, lucro_total, historico_dinheiro) ∧
        historico_dinheiro.length = ([1, 2] : List ℚ).length ∧
        (∀ t, t + 1 ≤ ([1, 2] : List ℚ).length - 1 →
          historico_dinheiro.getD (t + 1) 0 =
            if ([0, 3] : List ℚ).getD (t + 1) 0 > ([1, 2] : List ℚ).getD t 0 then
              historico_dinheiro.getD t 0 *
                (([1, 2] : List ℚ).getD (t + 1) 0 / ([1, 2] : List ℚ).getD t 0)
            else
              historico_dinheiro.getD t 0) ∧
        lucro_total =
          historico_dinheiro.getD (([1, 2] : List ℚ).length - 1) 0 - 1000 :=
  C2_regra_de_decisao [1, 2] [0, 3] 1000 (by simp) (by simp)
    (by intro p hp; rcases List.mem_pair.mp hp with h | h <;> rw [h] <;> norm_num)

/-- C6: if every prediction for tomorrow is at most today's price, the capital
never changes: the simulator succeeds with a constant trajectory equal to the
initial capital and profit `0`. -/
theorem C6_nunca_investe (precos_reais previsoes_modelo : List ℚ)
    (investimento_inicial : ℚ)
    (hlen : precos_reais.length = previsoes_modelo.length)
    (h2 : 2 ≤ precos_reais.length)
    (hflat : ∀ t, t + 1 < precos_reais.length →
      previsoes_modelo.getD (t + 1) 0 ≤ precos_reais.getD t 0) :
    calcular_lucro_investimento precos_reais previsoes_modelo investimento_inicial =
      some (investimento_inicial, 0,
        List.replicate precos_reais.length investimento_inicial) := by
  have hD : ∀ k, k ≤ precos_reais.length - 1 →
      dinheiro_apos precos_reais previsoes_modelo investimento_inicial k =
        investimento_inicial := by
    intro k
    induction k with
    | zero => intro _; rfl
    | succ k ih =>
        intro hk
        simp only [dinheiro_apos, atualiza_dinheiro]
        rw [if_neg (not_lt.mpr (hflat k (by omega))), ih (by omega)]
  rw [calcular_lucro_eq _ _ _ hlen]
  have hmap : (List.range (precos_reais.length - 1 + 1)).map
      (dinheiro_apos precos_reais previsoes_modelo investimento_inicial) =
        List.replicate precos_reais.length investimento_inicial := by
    rw [List.eq_replicate_iff]
    refine ⟨by simp; omega, ?_⟩
    intro b hb
    obtain ⟨k, hk, rfl⟩ := by simpa using hb
    exact hD k (by omega)
  rw [hmap, hD _ le_rfl]
  simp

/-- Witness for C6 at `precos_reais = [2, 1]`, `previsoes_modelo = [0, 1]`,
initial capital `9`. -/
theorem C6_nunca_investe_witness :
    calcular_lucro_investimento [2, 1] [0, 1] 9 =
      some (9, 0, List.replicate ([2, 1] : List ℚ).length 9) :=
  C6_nunca_investe [2, 1] [0, 1] 9 (by simp) (by simp)
    (by
      intro t ht
      simp only [List.length_cons, List.length_nil] at ht
      have ht0 : t = 0 := by omega
      subst ht0
      norm_num)

/-- C10: with strictly positive prices and a strictly positive initial capital,
every trajectory entry returned by the simulator is strictly positive. -/
theorem C10_trajetoria_positiva (precos_reais previsoes_modelo : List ℚ)
    (investimento_inicial : ℚ)
    (hlen : precos_reais.length = previsoes_modelo.length)
    (hpos : ∀ p ∈ precos_reais, 0 < p)
    (hinv : 0 < investimento_inicial) :
    ∃ dinheiro_final lucro_total historico_dinheiro,
      calcular_lucro_investimento precos_reais previsoes_modelo investimento_inicial =
          some (dinheiro_final, lucro_total, historico_dinheiro) ∧
        ∀ v ∈ historico_dinheiro, 0 < v := by
  have hD : ∀ k, k ≤ precos_reais.length - 1 →
      0 < dinheiro_apos precos_reais previsoes_modelo investimento_inicial k := by
    intro k
    induction k with
    | zero => intro _; exact hinv
    | succ k ih =>
        intro hk
        have h1 : 0 < precos_reais.getD k 0 :=
          hpos _ (getD_mem_of_lt _ _ (by omega))
        have h2 : 0 < precos_reais.getD (k + 1) 0 :=
          hpos _ (getD_mem_of_lt _ _ (by omega))
        simp only [dinheiro_apos, atualiza_dinheiro]
        split
        · exact mul_pos (div_pos (ih (by omega)) h1) h2
        · exact ih (by omega)
  refine ⟨_, _, _, calcular_lucro_eq _ _ _ hlen, ?_⟩
  intro v hv
  obtain ⟨k, hk, rfl⟩ := by simpa using hv
  exact hD k (by omega)

/-- Witness for C10 at `precos_reais = [1, 3]`, `previsoes_modelo = [0, 2]`,
initial capital `5`. -/
theorem C10_trajetoria_positiva_witness :
    ∃ dinheiro_final lucro_total historico_dinheiro,
      calcular_lucro_investimento [1, 3] [0, 2] 5 =
          some (dinheiro_final, lucro_total, historico_dinheiro) ∧
        ∀ v ∈ historico_dinheiro, 0 < v :=
  C10_trajetoria_positiva [1, 3] [0, 2] 5 (by simp)
    (by intro p hp; rcases List.mem_pair.mp hp with h | h <;> rw [h] <;> norm_num)
    (by norm_num)

/-- C7: for a non-empty price list with a non-zero first price, buy-and-hold
returns exactly `investimento_inicial * precos_reais[-1] / precos_reais[0] -
investimento_inicial`; in particular on `[100, 200]` with initial capital
`1000` it returns `1000`. -/
theorem C7_buy_and_hold (precos_reais : List ℚ) (investimento_inicial : ℚ)
    (hne : precos_reais ≠ [])
    (h0 : precos_reais.getD 0 0 ≠ 0) :
    calcular_estrategia_buy_and_hold precos_reais investimento_inicial =
        investimento_inicial * precos_reais.getD (precos_reais.length - 1) 0 /
          precos_reais.getD 0 0 - investimento_inicial ∧
      calcular_estrategia_buy_and_hold [100, 200] 1000 = 1000 := by
  constructor
  · simp only [calcular_estrategia_buy_and_hold]
    rw [div_mul_eq_mul_div]
  · norm_num [calcular_estrategia_buy_and_hold]

/-- Witness for C7 at `precos_reais = [100, 200]`, initial capital `1000`. -/
theorem C7_buy_and_hold_witness :
    calcular_estrategia_buy_and_hold [100, 200] 1000 =
        1000 * ([100, 200] : List ℚ).getD (([100, 200] : List ℚ).length - 1) 0 /
          ([100, 200] : List ℚ).getD 0 0 - 1000 ∧
      calcular_estrategia_buy_and_hold [100, 200] 1000 = 1000 :=
  C7_buy_and_hold [100, 200] 1000 (by simp) (by norm_num)

/-- C8: the comparator declares model 1 the winner exactly when `lucro1` is
strictly greater than `lucro2`; on a tie model 2 wins with margin `0`; and the
reported margin is always the winner's profit minus the loser's profit. -/
theorem C8_comparador_vencedor (lucro1 lucro2 : ℚ) :
    ((comparar_lucro_entre_modelos lucro1 lucro2 "Modelo 1" "Modelo 2").1 =
        "Modelo 1" ↔ lucro1 > lucro2) ∧
      (lucro1 = lucro2 →
        comparar_lucro_entre_modelos lucro1 lucro2 "Modelo 1" "Modelo 2" =
          ("Modelo 2", 0)) ∧
      (comparar_lucro_entre_modelos lucro1 lucro2 "Modelo 1" "Modelo 2").2 =
        if lucro1 > lucro2 then lucro1 - lucro2 else lucro2 - lucro1 := by
  unfold comparar_lucro_entre_modelos
  by_cases h : lucro1 > lucro2
  · rw [if_pos h, if_pos h]
    exact ⟨⟨fun _ => h, fun _ => rfl⟩,
      fun heq => absurd h (by rw [heq]; exact lt_irrefl _), rfl⟩
  · rw [if_neg h, if_neg h]
    exact ⟨⟨fun hname =>
        absurd hname (by decide : ¬(("Modelo 2" : String) = "Modelo 1")),
        fun hgt => absurd hgt h⟩,
      fun heq => by rw [heq, sub_self], rfl⟩

/-- Witness for C8 at the tied profits `(3, 3)`. -/
theorem C8_comparador_vencedor_witness :
    comparar_lucro_entre_modelos 3 3 "Modelo 1" "Modelo 2" = ("Modelo 2", 0) :=
  (C8_comparador_vencedor 3 3).2.1 rfl

/-- C9: the numeric guard never fails and every entry of its output is a finite
value of absolute value at most `50`; moreover the guard acts entrywise as
`np.nan_to_num(., nan=0, posinf=10, neginf=-10)` followed by
`np.clip(., -50, 50)`, so NaN entries become `0`, `+Inf` becomes `10` and
`-Inf` becomes `-10` before clipping. -/
theorem C9_guarda_numerica (matriz : List FloatVal) :
    (∀ v ∈ sanitiza_matriz_escalada matriz,
        ∃ x : ℚ, v = FloatVal.finite x ∧ -50 ≤ x ∧ x ≤ 50) ∧
      sanitiza_matriz_escalada matriz =
        matriz.map (fun v => clip (-50) 50 (nan_to_num v)) ∧
      nan_to_num FloatVal.nan = FloatVal.finite 0 ∧
      nan_to_num FloatVal.posinf = FloatVal.finite 10 ∧
      nan_to_num FloatVal.neginf = FloatVal.finite (-10) := by
  have hmap : sanitiza_matriz_escalada matriz =
      matriz.map (fun v => clip (-50) 50 (nan_to_num v)) := by
    unfold sanitiza_matriz_escalada
    by_cases hany : matriz.any (fun v => v.isnan || v.isinf)
    · rw [if_pos hany, List.map_map]
      rfl
    · rw [if_neg hany]
      refine List.map_congr_left ?_
      intro v hv
      have hvok : ¬(v.isnan || v.isinf) = true := by
        intro hcontra
        exact hany (List.any_eq_true.mpr ⟨v, hv, hcontra⟩)
      cases v with
      | nan => exact absurd rfl hvok
      | posinf => exact absurd rfl hvok
      | neginf => exact absurd rfl hvok
      | finite x => rfl
  refine ⟨?_, hmap, rfl, rfl, rfl⟩
  intro v hv
  rw [hmap] at hv
  obtain ⟨w, _, rfl⟩ := List.mem_map.mp hv
  cases w with
  | nan => exact ⟨0, rfl, by norm_num, by norm_num⟩
  | posinf => exact ⟨max (-50) (min 50 10), rfl, le_max_left _ _,
      max_le (by norm_num) (min_le_left _ _)⟩
  | neginf => exact ⟨max (-50) (min 50 (-10)), rfl, le_max_left _ _,
      max_le (by norm_num) (min_le_left _ _)⟩
  | finite x => exact ⟨max (-50) (min 50 x), rfl, le_max_left _ _,
      max_le (by norm_num) (min_le_left _ _)⟩

/-- Witness for C9 at the matrix `[NaN, +Inf, -Inf, 100]`: the first sanitized
entry is finite and bounded. -/
theorem C9_guarda_numerica_witness :
    FloatVal.finite 0 ∈ sanitiza_matriz_escalada
        [FloatVal.nan, FloatVal.posinf, FloatVal.neginf, FloatVal.finite 100] ∧
      ∃ x : ℚ, FloatVal.finite 0 = FloatVal.finite x ∧ -50 ≤ x ∧ x ≤ 50 :=
  ⟨by decide,
    (C9_guarda_numerica
        [FloatVal.nan, FloatVal.posinf, FloatVal.neginf, FloatVal.finite 100]).1
      (FloatVal.finite 0) (by decide)⟩

/-- C1: contrary to the claim, the cross-validation error that ranks a
candidate degree is NOT computed at that degree: `validacao_cruzada_kfold`
takes no degree argument and its `poly` branch always expands with
`PolynomialFeatures(degree=2)` (`grau_poly_cv = 2`), so `erro_medio` is the
same value in every iteration of the degree loop and, by the strict `<`
update, the returned best degree is `2` whatever that value is. -/
theorem C1_grau_cv_fixo_e_melhor_grau_sempre_2 : ∀ erro_cv : ℚ,
    (encontrar_melhor_grau_polinomial erro_cv).1 = 2 ∧ grau_poly_cv = 2 := by
  intro erro_cv
  refine ⟨?_, rfl⟩
  have hr : List.range' 2 9 = [2, 3, 4, 5, 6, 7, 8, 9, 10] := rfl
  unfold encontrar_melhor_grau_polinomial
  rw [hr]
  simp [menor_que_erro, lt_irrefl]

end CryptoPredictor
